import Mathlib

/-!
Verification of the pain-analytics and urgency-scoring engine of the
Healthhacks repository (files `src/utils/urgencyAssessment.ts`,
`src/utils/doctorExport.ts`, `src/utils/providerAnalytics.ts`,
`src/utils/advancedAnalytics.ts`).

Modelling conventions of this shallow embedding:
* A `PainLog` record carries, besides the raw `date`/`time` strings, the two
  timestamps the TypeScript code obtains by parsing them:
  `ts` models `new Date(log.date + ' ' + log.time).getTime()` and
  `dateTs` models `new Date(log.date).getTime()` (both in milliseconds).
* JavaScript floating-point means are modelled by exact rationals (`ℚ`);
  all quantities compared against the engine's thresholds are ratios of
  small integers, where double rounding cannot cross a threshold.
* `Array.prototype.sort` (stable since ES2019) with comparator
  `(a, b) => k(a) - k(b)` is modelled by `List.mergeSort` (stable) with the
  boolean relation `k(a) ≤ k(b)`.
* The ambient clock (`new Date()` inside a function body) is made explicit:
  functions that read the clock take an extra argument `now : ℤ`
  (epoch milliseconds).  `weekAgo` (obtained in the source by
  `setDate(getDate() - 7)`) is modelled as `now` minus seven days of
  milliseconds.
* JavaScript division of a sum by the length of an empty list yields `NaN`,
  and every comparison against `NaN` is false; wherever the source can
  divide by zero, the embedding carries the explicit emptiness guard that
  makes the corresponding comparison false.
-/

/-- Milliseconds in one day, `1000 * 60 * 60 * 24`. -/
def msPerDay : ℤ := 86400000

/-- Milliseconds in seven days (the `weekAgo` window of the source). -/
def msPerWeek : ℤ := 604800000

/-- Record shape of a pain-log entry (`src/types/pain.ts`), with the two
parsed timestamps carried alongside the raw strings (see module comment). -/
structure PainLog where
  id : String
  date : String
  time : String
  ts : ℤ
  dateTs : ℤ
  bodyPart : String
  severity : ℕ
  painType : String
  cause : String
  activity : Option String
  descriptionText : Option String
  tags : Option (List String)
deriving DecidableEq, Inhabited

/-- Urgency level enumeration `'low' | 'medium' | 'high' | 'critical'`. -/
inductive UrgLevel
  | low
  | medium
  | high
  | critical
deriving DecidableEq, Inhabited

/-- Keyword tier enumeration `'mild' | 'moderate' | 'severe'` of
`providerAnalytics.ts`. -/
inductive Tier
  | mild
  | moderate
  | severe
deriving DecidableEq, Inhabited

/-- Flag category `'severity' | 'frequency' | 'duration' | 'symptoms' | 'trend'`. -/
inductive FlagType
  | severityF
  | frequencyF
  | durationF
  | symptomsF
  | trendF
deriving DecidableEq, Inhabited

/-- Trend classification of `doctorExport.ts`. -/
inductive Trend
  | improving
  | worsening
  | stable
deriving DecidableEq, Inhabited

/-- Sum of the `severity` fields of a list of logs. -/
def sumSev (logs : List PainLog) : ℕ :=
  logs.foldl (fun s l => s + l.severity) 0

/-- Arithmetic mean of the severities as an exact rational
(models the floating-point `reduce(...) / length` of the source). -/
def meanSev (logs : List PainLog) : ℚ :=
  (sumSev logs : ℚ) / (logs.length : ℚ)

/-- Maximum severity, `Math.max(...logs.map(l => l.severity))` (0 on `[]`,
which the source never reaches). -/
def maxSev (logs : List PainLog) : ℕ :=
  logs.foldl (fun m l => max m l.severity) 0

/-- Chronologically ascending stable sort,
`[...logs].sort((a, b) => ta - tb)` on parsed `date + ' ' + time`. -/
def sortAsc (logs : List PainLog) : List PainLog :=
  logs.mergeSort (fun a b => decide (a.ts ≤ b.ts))

/-- Chronologically descending (newest first) stable sort,
`[...logs].sort((a, b) => tb - ta)`. -/
def sortDesc (logs : List PainLog) : List PainLog :=
  logs.mergeSort (fun a b => decide (b.ts ≤ a.ts))

/-- All suffixes of a character list, longest first (helper for substring
matching; structural so that it evaluates by `rfl`). -/
def tailsFrom : List Char → List (List Char)
  | [] => [[]]
  | c :: cs => (c :: cs) :: tailsFrom cs

/-- Substring test over character lists, the model of JavaScript
`haystack.includes(needle)`. -/
def substrIn (needle hay : List Char) : Bool :=
  (tailsFrom hay).any (fun t => needle.isPrefixOf t)

/-- Lower-casing of a string to a character list (model of `.toLowerCase()`
for the ASCII keyword lexicons of the source). -/
def lowerChars (s : String) : List Char :=
  s.data.map Char.toLower

/-- Keyword containment test: `text.includes(keyword.toLowerCase())` where
`text` is an already lower-cased character list. -/
def containsKw (txt : List Char) (kw : String) : Bool :=
  substrIn (lowerChars kw) txt

/-- Duplicate removal keeping the first occurrence, the model of
`[...new Set(xs)]` (JavaScript `Set` preserves first-insertion order);
`seen` accumulates the elements already emitted. -/
def firstDedupAux (seen : List String) : List String → List String
  | [] => []
  | x :: xs =>
      if x ∈ seen then firstDedupAux seen xs
      else x :: firstDedupAux (x :: seen) xs

/-- Duplicate removal keeping the first occurrence, `[...new Set(xs)]`. -/
def firstDedup (xs : List String) : List String :=
  firstDedupAux [] xs

/-- Rounding to one decimal place, `Math.round(q * 10) / 10`
(JavaScript `Math.round` rounds halves toward `+∞`, as does `round`). -/
def round1 (q : ℚ) : ℚ :=
  ((round (q * 10) : ℤ) : ℚ) / 10

namespace Urgency

/-- Constant `URGENT_KEYWORDS` of `urgencyAssessment.ts`. -/
def URGENT_KEYWORDS : List String :=
  ["numb", "numbness", "tingling", "burning", "can't sleep", "unbearable",
   "spreading", "weakness", "paralysis", "severe", "excruciating",
   "shooting", "electric", "radiating", "constant", "worsening",
   "dizzy", "nausea", "vomiting", "fever", "swelling"]

/-- Constant `CRITICAL_KEYWORDS` of `urgencyAssessment.ts`. -/
def CRITICAL_KEYWORDS : List String :=
  ["chest pain", "trouble breathing", "shortness of breath", "heart",
   "stroke", "paralyzed", "can't move", "loss of consciousness",
   "severe headache", "sudden onset", "emergency"]

/-- Flag record of `urgencyAssessment.ts`.  The `details` template string of
the source interpolates numbers and keyword lists into a fixed text; the
embedding keeps the interpolated payloads (`detailNums`, `detailStrs`)
instead of rendering the final string. -/
structure UrgencyFlag where
  ftype : FlagType
  fsev : UrgLevel
  message : String
  detailNums : List ℚ
  detailStrs : List String
deriving DecidableEq, Inhabited

/-- Result record of `assessPatientUrgency`; `lastUpdated` models the
`new Date().toISOString()` stamp by the raw clock value. -/
structure UrgencyAssessment where
  level : UrgLevel
  score : ℕ
  flags : List UrgencyFlag
  recommendations : List String
  lastUpdated : ℤ
deriving DecidableEq, Inhabited

/-- Severity rule block (`// 1. Severity Assessment`, lines 66-95):
flag pushed (at most one) and score contribution. -/
def severityBlock (recent : List PainLog) : List UrgencyFlag × ℕ :=
  let avgSeverity := meanSev recent
  let maxSeverity := maxSev recent
  let highSeverityCount := (recent.filter (fun l => decide (8 ≤ l.severity))).length
  if 9 ≤ maxSeverity then
    ([⟨.severityF, .critical, "Extreme pain levels reported", [(maxSeverity : ℚ)], []⟩], 25)
  else if 7 ≤ avgSeverity then
    ([⟨.severityF, .high, "Consistently high pain levels", [avgSeverity, (recent.length : ℚ)], []⟩], 15)
  else if 3 ≤ highSeverityCount then
    ([⟨.severityF, .medium, "Multiple severe pain episodes", [(highSeverityCount : ℚ)], []⟩], 10)
  else ([], 0)

/-- Frequency rule block (`// 2. Frequency Assessment`, lines 97-114),
as a function of the number of entries dated in the last seven days. -/
def frequencyBlock (last7 : ℕ) : List UrgencyFlag × ℕ :=
  if 7 ≤ last7 then
    ([⟨.frequencyF, .high, "Daily pain logging", [(last7 : ℚ)], []⟩], 12)
  else if 5 ≤ last7 then
    ([⟨.frequencyF, .medium, "Frequent pain episodes", [(last7 : ℚ)], []⟩], 8)
  else ([], 0)

/-- Trend rule block (`// 3. Trend Assessment`, lines 116-143).  `recent`
is newest-first, so `firstHalf` (the chronologically older part) is
`slice(floor(n/2))` and `secondHalf` (newer) is `slice(0, floor(n/2))`. -/
def trendBlock (recent : List PainLog) : List UrgencyFlag × ℕ :=
  if 5 ≤ recent.length then
    let firstHalf := recent.drop (recent.length / 2)
    let secondHalf := recent.take (recent.length / 2)
    let trendDifference := meanSev secondHalf - meanSev firstHalf
    if 2 ≤ trendDifference then
      ([⟨.trendF, .high, "Rapidly worsening pain", [trendDifference], []⟩], 18)
    else if 1 ≤ trendDifference then
      ([⟨.trendF, .medium, "Worsening pain trend", [trendDifference], []⟩], 10)
    else ([], 0)
  else ([], 0)

/-- Joined, lower-cased text of the recent entries
(`` `${log.description || ''} ${log.tags?.join(' ') || ''}` `` joined by a
space, then `.toLowerCase()`). -/
def allDescriptions (recent : List PainLog) : List Char :=
  lowerChars (String.intercalate " "
    (recent.map (fun l =>
      l.descriptionText.getD "" ++ " " ++ String.intercalate " " (l.tags.getD []))))

/-- Symptom-keyword rule block (`// 4. Symptom Keywords Assessment`,
lines 145-183). -/
def symptomBlock (recent : List PainLog) : List UrgencyFlag × ℕ :=
  let txt := allDescriptions recent
  let criticalMatches := CRITICAL_KEYWORDS.filter (fun k => containsKw txt k)
  let urgentMatches := URGENT_KEYWORDS.filter (fun k => containsKw txt k)
  if 0 < criticalMatches.length then
    ([⟨.symptomsF, .critical, "Critical symptoms reported", [], criticalMatches⟩], 30)
  else if 3 ≤ urgentMatches.length then
    ([⟨.symptomsF, .high, "Multiple concerning symptoms", [], urgentMatches.take 3⟩], 15)
  else if 1 ≤ urgentMatches.length then
    ([⟨.symptomsF, .medium, "Concerning symptoms reported", [], urgentMatches⟩], 8)
  else ([], 0)

/-- Day count since the chronologically first entry
(`Math.floor((now - parse(sortedLogs[last].date)) / msPerDay)`),
as a function of the descending-sorted list. -/
def daysSinceFirstOf (sortedLogs : List PainLog) (now : ℤ) : ℤ :=
  Int.fdiv (now - (sortedLogs.getLast?.getD default).dateTs) msPerDay

/-- Duration rule block (`// 5. Duration Assessment`, lines 185-197). -/
def durationBlock (daysSinceFirst : ℤ) (avgSeverity : ℚ) : List UrgencyFlag × ℕ :=
  if 30 ≤ daysSinceFirst ∧ 5 ≤ avgSeverity then
    ([⟨.durationF, .medium, "Chronic pain pattern", [(daysSinceFirst : ℚ), avgSeverity], []⟩], 8)
  else ([], 0)

/-- Number of entries whose `date` falls within the last seven days of the
clock (`last7Days.length`; the source keeps the filtered array and only
ever reads its length). -/
def last7Count (logs : List PainLog) (now : ℤ) : ℕ :=
  ((sortDesc logs).filter (fun l => decide (now - msPerWeek ≤ l.dateTs))).length

/-- Baseline recommendation messages for a level (lines 230-242). -/
def baseRecs : UrgLevel → List String
  | .critical =>
      ["URGENT: Schedule immediate consultation or emergency evaluation",
       "Consider same-day appointment or emergency referral"]
  | .high =>
      ["Schedule priority appointment within 24-48 hours",
       "Review current pain management plan"]
  | .medium =>
      ["Schedule follow-up within 1-2 weeks",
       "Monitor pain trends closely"]
  | .low =>
      ["Continue current management plan",
       "Routine follow-up as scheduled"]

/-- Per-flag recommendation messages (the `switch` of lines 245-272). -/
def flagRecs (f : UrgencyFlag) : List String :=
  match f.ftype with
  | .severityF =>
      if f.fsev = .critical ∨ f.fsev = .high then
        ["Consider pain medication adjustment",
         "Evaluate for underlying cause escalation"]
      else []
  | .frequencyF =>
      ["Assess current pain management effectiveness",
       "Consider preventive measures"]
  | .trendF =>
      ["Investigate cause of pain escalation",
       "Review recent activities and triggers"]
  | .symptomsF =>
      (if f.fsev = .critical then ["Rule out serious underlying conditions"] else [])
        ++ ["Detailed symptom assessment recommended"]
  | .durationF =>
      ["Consider specialist referral for chronic pain",
       "Evaluate long-term management strategies"]

/-- Function `generateRecommendations` (lines 223-275): the base messages of
the level, then the per-flag messages in flag order, deduplicated keeping
first occurrences (`[...new Set(recommendations)]`). -/
def generateRecommendations (flags : List UrgencyFlag) (level : UrgLevel)
    (_recentLogs : List PainLog) : List String :=
  firstDedup (baseRecs level ++ flags.flatMap flagRecs)

/-- Function `assessPatientUrgency` (lines 39-221).  `now` is the ambient
clock in epoch milliseconds. -/
def assessPatientUrgency (painLogs : List PainLog) (now : ℤ) : UrgencyAssessment :=
  if painLogs = [] then
    ⟨.low, 0, [], ["No recent pain data available"], now⟩
  else
    let sortedLogs := sortDesc painLogs
    let recentLogs := sortedLogs.take 10
    let last7 := last7Count painLogs now
    let sb := severityBlock recentLogs
    let fb := frequencyBlock last7
    let tb := trendBlock recentLogs
    let kb := symptomBlock recentLogs
    let db := durationBlock (daysSinceFirstOf sortedLogs now) (meanSev recentLogs)
    let urgencyScore := sb.2 + fb.2 + tb.2 + kb.2 + db.2
    let flags := sb.1 ++ fb.1 ++ tb.1 ++ kb.1 ++ db.1
    let level : UrgLevel :=
      if 25 ≤ urgencyScore then .critical
      else if 15 ≤ urgencyScore then .high
      else if 8 ≤ urgencyScore then .medium
      else .low
    ⟨level, urgencyScore, flags, generateRecommendations flags level recentLogs, now⟩

end Urgency

namespace DoctorExport

/-- Pain-trend analysis of `generateDoctorReport`
(`doctorExport.ts` lines 63-79): with at least four entries, sort
chronologically ascending, split at `floor(n/2)`, and compare the half
means against the `±0.5` thresholds; otherwise `stable`. -/
def painTrend (painLogs : List PainLog) : Trend :=
  if 4 ≤ painLogs.length then
    let sortedLogs := sortAsc painLogs
    let midpoint := sortedLogs.length / 2
    let firstHalf := sortedLogs.take midpoint
    let secondHalf := sortedLogs.drop midpoint
    let difference := meanSev secondHalf - meanSev firstHalf
    if 1/2 < difference then .worsening
    else if difference < -(1/2) then .improving
    else .stable
  else .stable

/-- Caller-visible content of the `painLogs` array after
`generateDoctorReport` returns (`doctorExport.ts`): the empty-input branch
(lines 23-42) returns before any array operation; otherwise every use of
the parameter is read-only except line 115, where
`detailedLogs: painLogs.sort(...)` sorts the caller's array **in place**
newest-first (`Array.prototype.sort` mutates; the spread copy is only used
at line 66). -/
def generateDoctorReportArray (painLogs : List PainLog) : List PainLog :=
  if painLogs.length = 0 then painLogs else sortDesc painLogs

end DoctorExport

namespace Advanced

/-- Flare-up record of `advancedAnalytics.ts`.  `dateTs` carries the parse
`new Date(f.date).getTime()` of the stored date string (used by the source
at line 57), mirroring the `dateTs` field of the log the flare came from. -/
structure FlareUp where
  date : String
  dateTs : ℤ
  severity : ℕ
  bodyPart : String
  isSpike : Bool
  daysSinceLastFlare : Option ℤ
deriving DecidableEq, Inhabited

/-- Spike test of lines 50-52: severity above `avg + 2`, above the previous
entry's severity plus 2, and at least 7, in the source's operand order. -/
def isSpikeTest (avgSeverity : ℚ) (prevLog currentLog : PainLog) : Bool :=
  decide (avgSeverity + 2 < (currentLog.severity : ℚ))
    && decide (prevLog.severity + 2 < currentLog.severity)
    && decide (7 ≤ currentLog.severity)

/-- Loop of lines 45-68 over chronologically sorted logs: `prevLog` is the
entry before the list head, `acc` the flare-ups pushed so far (the source's
`flareUps` array, read through `acc.getLast?` for `daysSinceLastFlare`). -/
def flareLoop (avgSeverity : ℚ) : PainLog → List PainLog → List FlareUp → List FlareUp
  | _, [], acc => acc
  | prevLog, currentLog :: rest, acc =>
      if isSpikeTest avgSeverity prevLog currentLog then
        let daysSinceLastFlare :=
          match acc.getLast? with
          | some f => some (Int.fdiv (currentLog.dateTs - f.dateTs) msPerDay)
          | none => none
        flareLoop avgSeverity currentLog rest
          (acc ++ [⟨currentLog.date, currentLog.dateTs, currentLog.severity,
                    currentLog.bodyPart, true, daysSinceLastFlare⟩])
      else flareLoop avgSeverity currentLog rest acc

/-- Function `detectFlareUps` (`advancedAnalytics.ts` lines 35-71):
fewer than 3 logs yield `[]`; otherwise sort ascending, take the overall
mean severity, and scan consecutive pairs from index 1. -/
def detectFlareUps (painLogs : List PainLog) : List FlareUp :=
  if painLogs.length < 3 then []
  else
    let sortedLogs := sortAsc painLogs
    let avgSeverity := meanSev sortedLogs
    match sortedLogs with
    | [] => []
    | first :: rest => flareLoop avgSeverity first rest []

/-- Caller-visible content of the `painLogs` array after `detectFlareUps`
returns: the function reads its argument and sorts only the spread copy of
line 38, so the array is unchanged. -/
def detectFlareUpsArray (painLogs : List PainLog) : List PainLog :=
  painLogs

/-- Caller-visible content of the `painLogs` array after
`assessPatientUrgency` returns: only the spread copy of
`urgencyAssessment.ts` line 54 is sorted, so the array is unchanged. -/
def assessPatientUrgencyArray (painLogs : List PainLog) : List PainLog :=
  painLogs

/-- Caller-visible content of the `painLogs` array after
`generateProviderSummary` returns: only the spread copy of
`providerAnalytics.ts` line 82 is sorted, so the array is unchanged. -/
def generateProviderSummaryArray (painLogs : List PainLog) : List PainLog :=
  painLogs

end Advanced

namespace Provider

/-- Constant `CRITICAL_KEYWORDS` of `providerAnalytics.ts` (tier `severe`). -/
def CRITICAL_KEYWORDS : List String :=
  ["numbness", "numb", "tingling", "weakness", "paralysis", "paralyzed",
   "chest pain", "difficulty breathing", "shortness of breath",
   "severe headache", "vision problems", "blurred vision",
   "fever", "infection", "swelling", "redness"]

/-- Constant `HIGH_SEVERITY_KEYWORDS` of `providerAnalytics.ts`
(tier `moderate`). -/
def HIGH_SEVERITY_KEYWORDS : List String :=
  ["burning", "stabbing", "shooting", "electric", "radiating",
   "cant sleep", "can't sleep", "sleepless", "insomnia",
   "constant", "persistent", "worsening", "getting worse",
   "unbearable", "excruciating", "severe"]

/-- Constant `MODERATE_KEYWORDS` of `providerAnalytics.ts` (tier `mild`). -/
def MODERATE_KEYWORDS : List String :=
  ["aching", "throbbing", "cramping", "stiff", "tight",
   "sore", "tender", "uncomfortable", "bothersome",
   "activity limited", "difficult to move", "limited mobility"]

/-- Record `SymptomKeyword` of `providerAnalytics.ts`. -/
structure SymptomKeyword where
  keyword : String
  severity : Tier
  count : ℕ
  dates : List String
  context : List String
deriving DecidableEq, Inhabited

/-- Numeric order of tiers, the `severityOrder` table
`{ severe: 3, moderate: 2, mild: 1 }` of line 206. -/
def severityOrder : Tier → ℕ
  | .severe => 3
  | .moderate => 2
  | .mild => 1

/-- Context line `` `${log.bodyPart}: ${log.description || 'No description'}` ``. -/
def contextLine (log : PainLog) : String :=
  log.bodyPart ++ ": " ++ log.descriptionText.getD "No description"

/-- Function `updateKeywordMap` (lines 211-231).  The source's insertion-order
`Map` keyed by keyword is modelled by a list of values in insertion order:
an existing entry is updated in place, a new one appended. -/
def updateKeywordMap (m : List SymptomKeyword) (kw : String) (sev : Tier)
    (log : PainLog) : List SymptomKeyword :=
  if m.any (fun s => s.keyword = kw) then
    m.map (fun s =>
      if s.keyword = kw then
        ⟨s.keyword, s.severity, s.count + 1, s.dates ++ [log.date],
         s.context ++ [contextLine log]⟩
      else s)
  else m ++ [⟨kw, sev, 1, [log.date], [contextLine log]⟩]

/-- Searched text of one log:
`` `${log.description || ''} ${log.activity || ''} ${(log.tags || []).join(' ')}`.toLowerCase() ``. -/
def logText (log : PainLog) : List Char :=
  lowerChars (log.descriptionText.getD "" ++ " " ++ log.activity.getD "" ++ " "
    ++ String.intercalate " " (log.tags.getD []))

/-- Per-log step of `detectSymptomKeywords` (lines 179-202): the three
lexicons are scanned in order critical, high-severity, moderate. -/
def keywordStep (m : List SymptomKeyword) (log : PainLog) : List SymptomKeyword :=
  let txt := logText log
  let m1 := CRITICAL_KEYWORDS.foldl
    (fun acc kw => if containsKw txt kw then updateKeywordMap acc kw .severe log else acc) m
  let m2 := HIGH_SEVERITY_KEYWORDS.foldl
    (fun acc kw => if containsKw txt kw then updateKeywordMap acc kw .moderate log else acc) m1
  MODERATE_KEYWORDS.foldl
    (fun acc kw => if containsKw txt kw then updateKeywordMap acc kw .mild log else acc) m2

/-- Boolean form of the sort comparator of lines 205-208:
`cmp(a, b) = severityOrder[b.severity] - severityOrder[a.severity] || b.count - a.count`
is non-positive exactly on this relation. -/
def keywordLe (a b : SymptomKeyword) : Bool :=
  decide (severityOrder b.severity < severityOrder a.severity
    ∨ (severityOrder b.severity = severityOrder a.severity ∧ b.count ≤ a.count))

/-- Function `detectSymptomKeywords` (lines 176-209): accumulate the keyword
map over the logs, then sort its values by tier descending and count
descending (stable sort on the insertion-ordered values). -/
def detectSymptomKeywords (logs : List PainLog) : List SymptomKeyword :=
  (logs.foldl keywordStep []).mergeSort keywordLe

/-- Result record of the `assessUrgency` helper of `providerAnalytics.ts`. -/
structure PAssessment where
  level : UrgLevel
  score : ℕ
  reasons : List String
  recommendations : List String
deriving DecidableEq, Inhabited

/-- Critical-symptom rule of `assessUrgency` (lines 239-244): +40. -/
def criticalPart (flaggedSymptoms : List SymptomKeyword) : ℕ :=
  if 0 < (flaggedSymptoms.filter (fun s => s.severity = .severe)).length then 40 else 0

/-- High-pain rule of `assessUrgency` (lines 247-252): +25 when severity ≥ 8
entries outnumber 30% of the collection (`> logs.length * 0.3`). -/
def highPainPart (logs : List PainLog) : ℕ :=
  if ((logs.length : ℚ)) * (3/10) < (((logs.filter (fun l => decide (8 ≤ l.severity))).length : ℚ))
  then 25 else 0

/-- Worsening-trend rule of `assessUrgency` (lines 255-266): +20 when the
mean of the last five entries exceeds the mean of the earlier entries by
more than one.  With exactly five entries `older` is empty, the source's
`olderAvg` is `NaN` and the comparison is false; the embedding carries the
corresponding `older ≠ []` guard. -/
def trendPart (logs : List PainLog) : ℕ :=
  if 5 ≤ logs.length then
    let recent := logs.drop (logs.length - 5)
    let older := logs.take (logs.length - 5)
    if older ≠ [] ∧ meanSev older + 1 < meanSev recent then 20 else 0
  else 0

/-- Sleep-disruption rule of `assessUrgency` (lines 269-276): +15. -/
def sleepPart (flaggedSymptoms : List SymptomKeyword) : ℕ :=
  if 0 < (flaggedSymptoms.filter (fun s =>
      substrIn "sleep".data s.keyword.data || substrIn "insomnia".data s.keyword.data)).length
  then 15 else 0

/-- Functional-limitation rule of `assessUrgency` (lines 279-286): +10. -/
def functionalPart (flaggedSymptoms : List SymptomKeyword) : ℕ :=
  if 0 < (flaggedSymptoms.filter (fun s =>
      substrIn "limited".data s.keyword.data || substrIn "difficult".data s.keyword.data)).length
  then 10 else 0

/-- Reasons and recommendations pushed alongside the score (the embedding
assembles them from the same rule conditions, in the source's push order). -/
def assessReasons (logs : List PainLog) (flaggedSymptoms : List SymptomKeyword) :
    List String × List String :=
  let critical := flaggedSymptoms.filter (fun s => s.severity = .severe)
  let highPain := logs.filter (fun l => decide (8 ≤ l.severity))
  let r1 : List String × List String :=
    if 0 < critical.length then
      (["Critical symptoms detected: "
          ++ String.intercalate ", " (critical.map (fun s => s.keyword))],
       ["Immediate medical evaluation recommended"])
    else ([], [])
  let r2 : List String × List String :=
    if highPainPart logs = 25 then
      (["Frequent severe pain episodes (" ++ toString highPain.length ++ "/"
          ++ toString logs.length ++ ")"],
       ["Pain management consultation needed"])
    else ([], [])
  let r3 : List String × List String :=
    if trendPart logs = 20 then
      (["Pain levels are worsening over time"], ["Reassess current treatment plan"])
    else ([], [])
  let r4 : List String × List String :=
    if sleepPart flaggedSymptoms = 15 then
      (["Sleep disruption reported"], ["Address sleep-related pain management"])
    else ([], [])
  let r5 : List String × List String :=
    if functionalPart flaggedSymptoms = 10 then
      (["Functional limitations noted"], ["Consider physical therapy referral"])
    else ([], [])
  (r1.1 ++ r2.1 ++ r3.1 ++ r4.1 ++ r5.1, r1.2 ++ r2.2 ++ r3.2 ++ r4.2 ++ r5.2)

/-- Helper `assessUrgency` of `providerAnalytics.ts` (lines 233-295). -/
def assessUrgency (logs : List PainLog) (flaggedSymptoms : List SymptomKeyword) :
    PAssessment :=
  let score := criticalPart flaggedSymptoms + highPainPart logs + trendPart logs
    + sleepPart flaggedSymptoms + functionalPart flaggedSymptoms
  let rs := assessReasons logs flaggedSymptoms
  let level : UrgLevel :=
    if 60 ≤ score then .critical
    else if 40 ≤ score then .high
    else if 20 ≤ score then .medium
    else .low
  ⟨level, score, rs.1, rs.2⟩

/-- Emitted peak-period record (lines 320-325); `startDate`/`endDate` model
the source's `start`/`end` fields, `avgPain` is rounded to one decimal. -/
structure PeakPeriod where
  startDate : String
  endDate : String
  avgPain : ℚ
  descriptionText : String
deriving DecidableEq, Inhabited

/-- Open-period accumulator `currentPeriod` of `identifyPeakPeriods`
(`start`, `end`, `logs`, `totalPain`). -/
structure OpenPeriod where
  startDate : String
  endDate : String
  logs : List PainLog
  totalPain : ℕ
deriving DecidableEq, Inhabited

/-- Closing of an open period (lines 316-327 and 332-342): average pain
rounded to one decimal and the description naming the distinct body parts
(first-occurrence order, `[...new Set(...)]`) and the episode count. -/
def closePeriod (p : OpenPeriod) : PeakPeriod :=
  ⟨p.startDate, p.endDate, round1 ((p.totalPain : ℚ) / (p.logs.length : ℚ)),
   "Severe pain in "
     ++ String.intercalate ", " (firstDedup (p.logs.map (fun l => l.bodyPart)))
     ++ " (" ++ toString p.logs.length ++ " episodes)"⟩

/-- Iteration of `identifyPeakPeriods` (lines 301-329): severity ≥ 7 starts
or extends the open period, lower severity closes it; the trailing open
period is closed after the loop (lines 332-342). -/
def peakLoop : Option OpenPeriod → List PainLog → List PeakPeriod
  | none, [] => []
  | some p, [] => [closePeriod p]
  | none, log :: rest =>
      if 7 ≤ log.severity then
        peakLoop (some ⟨log.date, log.date, [log], log.severity⟩) rest
      else peakLoop none rest
  | some p, log :: rest =>
      if 7 ≤ log.severity then
        peakLoop (some ⟨p.startDate, log.date, p.logs ++ [log], p.totalPain + log.severity⟩) rest
      else closePeriod p :: peakLoop none rest

/-- Helper `identifyPeakPeriods` of `providerAnalytics.ts` (lines 297-345);
the caller passes the logs already chronologically sorted. -/
def identifyPeakPeriods (logs : List PainLog) : List PeakPeriod :=
  peakLoop none logs

end Provider

section SpecSide

/-- Spec-worded trend classification (§4.1 `trend(entries)` of the spec):
sort chronologically ascending, split at `floor(n/2)`, classify by the sign
and magnitude of `laterMean − earlierMean`; fewer than 4 entries are
`stable` by definition. -/
def specTrend (entries : List PainLog) : Trend :=
  if entries.length < 4 then .stable
  else
    let sorted := sortAsc entries
    let earlierHalf := sorted.take (sorted.length / 2)
    let laterHalf := sorted.drop (sorted.length / 2)
    let diff := meanSev laterHalf - meanSev earlierHalf
    if diff < -(1/2) then .improving
    else if 1/2 < diff then .worsening
    else .stable

/-- Chronological order of a list: the engine's own stable ascending sort
leaves it unchanged. -/
def Chrono (logs : List PainLog) : Prop :=
  sortAsc logs = logs

/-- Spec-worded spike condition of §4.2 on a (previous, current) pair:
`severity ≥ 7` and `severity > overallAverage + 2` and
`severity > previousEntrySeverity + 2`. -/
def claimSpikePred (overallAverage : ℚ) (pc : PainLog × PainLog) : Bool :=
  decide (7 ≤ pc.2.severity)
    && decide (overallAverage + 2 < (pc.2.severity : ℚ))
    && decide (pc.1.severity + 2 < pc.2.severity)

/-- Date and severity of every entry the spec's spike rule marks, in
chronological order: consecutive pairs of the collection filtered by the
spike condition (the first entry has no predecessor and never appears). -/
def claimSpikes (logs : List PainLog) : List (String × ℕ) :=
  ((logs.zip logs.tail).filter (claimSpikePred (meanSev logs))).map
    (fun pc => (pc.2.date, pc.2.severity))

/-- Date and severity of an emitted flare-up. -/
def flareProj (f : Advanced.FlareUp) : String × ℕ :=
  (f.date, f.severity)

/-- Maximal runs of consecutive entries with `severity ≥ 7` (spec §4.2
peak-period rule); `cur` is the currently open run. -/
def highRunsAux (cur : List PainLog) : List PainLog → List (List PainLog)
  | [] => if cur = [] then [] else [cur]
  | log :: rest =>
      if 7 ≤ log.severity then highRunsAux (cur ++ [log]) rest
      else if cur = [] then highRunsAux [] rest
      else cur :: highRunsAux [] rest

/-- Maximal runs of consecutive entries with `severity ≥ 7`. -/
def highRuns (logs : List PainLog) : List (List PainLog) :=
  highRunsAux [] logs

/-- Spec-worded summary of one peak period: start date, end date, mean
severity of the members rounded to one decimal, and the description naming
the distinct body parts and the entry count. -/
def specSummarize (run : List PainLog) : Provider.PeakPeriod :=
  ⟨(run.head?.getD default).date, (run.getLast?.getD default).date,
   round1 ((sumSev run : ℚ) / (run.length : ℚ)),
   "Severe pain in "
     ++ String.intercalate ", " (firstDedup (run.map (fun l => l.bodyPart)))
     ++ " (" ++ toString run.length ++ " episodes)"⟩

/-- Open period built from a nonempty run (proof bridge between the loop
state of `identifyPeakPeriods` and the declarative run decomposition). -/
def mkOpen (run : List PainLog) : Provider.OpenPeriod :=
  ⟨(run.head?.getD default).date, (run.getLast?.getD default).date, run, sumSev run⟩

/-- Spec-table severity contribution (§4.4 rows 1-3): +25 for maximum ≥ 9,
else +15 for mean ≥ 7, else +10 for at least three entries of severity ≥ 8. -/
def specSeverityPoints (recent : List PainLog) : ℕ :=
  if 9 ≤ maxSev recent then 25
  else if (7 : ℚ) ≤ meanSev recent then 15
  else if 3 ≤ (recent.filter (fun l => decide (8 ≤ l.severity))).length then 10
  else 0

/-- Spec-table frequency contribution (§4.4 rows 4-5): +12 for at least 7
entries in the last seven days, else +8 for at least 5. -/
def specFrequencyPoints (last7 : ℕ) : ℕ :=
  if 7 ≤ last7 then 12 else if 5 ≤ last7 then 8 else 0

/-- Spec-table trend contribution (§4.4 rows 6-7, needs ≥ 5 entries):
+18 for a newer-half mean at least 2 above the older half, else +10 for at
least 1 above (the recent window is newest-first). -/
def specTrendPoints (recent : List PainLog) : ℕ :=
  if 5 ≤ recent.length then
    let diff := meanSev (recent.take (recent.length / 2))
      - meanSev (recent.drop (recent.length / 2))
    if 2 ≤ diff then 18 else if 1 ≤ diff then 10 else 0
  else 0

/-- Spec-table keyword contribution (§4.4 rows 8-10): +30 for any
critical-lexicon match, else +15 for at least 3 urgent-lexicon matches,
else +8 for at least one. -/
def specKeywordPoints (recent : List PainLog) : ℕ :=
  if ∃ k ∈ Urgency.CRITICAL_KEYWORDS, containsKw (Urgency.allDescriptions recent) k then 30
  else if 3 ≤ (Urgency.URGENT_KEYWORDS.filter
      (fun k => containsKw (Urgency.allDescriptions recent) k)).length then 15
  else if 1 ≤ (Urgency.URGENT_KEYWORDS.filter
      (fun k => containsKw (Urgency.allDescriptions recent) k)).length then 8
  else 0

/-- Spec-table chronic contribution (§4.4 row 11): +8 for a history span of
at least 30 days together with a recent mean severity of at least 5. -/
def specChronicPoints (logs : List PainLog) (now : ℤ) : ℕ :=
  if 30 ≤ Urgency.daysSinceFirstOf (sortDesc logs) now
      ∧ (5 : ℚ) ≤ meanSev ((sortDesc logs).take 10) then 8
  else 0

end SpecSide

section DemoData

/-- Open period corresponding to a run: `none` for the empty run (proof
bridge for the loop of `identifyPeakPeriods`). -/
def toOpen : List PainLog → Option Provider.OpenPeriod
  | [] => none
  | c :: cs => some (mkOpen (c :: cs))

/-- Demonstration entry: severity 5 logged at epoch day 0. -/
def logC : PainLog :=
  ⟨"c1", "2024-01-01", "09:00:00", 0, 0, "lower_back", 5, "sharp", "injury",
   none, none, none⟩

/-- Demonstration entry: severity 4 at epoch day 0 (chronologically first). -/
def logA : PainLog :=
  ⟨"a1", "2024-01-01", "08:00:00", 0, 0, "lower_back", 4, "dull", "unknown",
   none, none, none⟩

/-- Demonstration entry: severity 5 at epoch day 1 (chronologically second). -/
def logB : PainLog :=
  ⟨"b1", "2024-01-02", "08:00:00", 86400000, 86400000, "neck", 5, "sharp",
   "activity", none, none, none⟩

/-- Demonstration entry: severity 2 at epoch day 0. -/
def logS1 : PainLog :=
  ⟨"s1", "2024-01-01", "08:00:00", 0, 0, "lower_back", 2, "dull", "unknown",
   none, none, none⟩

/-- Demonstration entry: severity 2 at epoch day 1. -/
def logS2 : PainLog :=
  ⟨"s2", "2024-01-02", "08:00:00", 86400000, 86400000, "lower_back", 2, "dull",
   "unknown", none, none, none⟩

/-- Demonstration entry: severity 10 at epoch day 2. -/
def logS3 : PainLog :=
  ⟨"s3", "2024-01-03", "08:00:00", 172800000, 172800000, "lower_back", 10,
   "stabbing", "unknown", none, none, none⟩

end DemoData

section Lemmas

lemma firstDedupAux_nodup (l seen : List String) :
    (firstDedupAux seen l).Nodup ∧ ∀ x ∈ firstDedupAux seen l, x ∉ seen := by
  induction l generalizing seen with
  | nil => simp [firstDedupAux]
  | cons x xs ih =>
    by_cases hx : x ∈ seen
    · simpa [firstDedupAux, hx] using
        ⟨(ih seen).1, fun y hy => (ih seen).2 y hy⟩
    · simp only [firstDedupAux, if_neg hx]
      obtain ⟨h1, h2⟩ := ih (x :: seen)
      refine ⟨List.nodup_cons.mpr ⟨fun hmem => h2 x hmem (List.mem_cons_self x seen), h1⟩, ?_⟩
      intro y hy
      rcases List.mem_cons.mp hy with rfl | hy'
      · exact hx
      · exact fun hys => h2 y hy' (List.mem_cons_of_mem _ hys)

lemma firstDedup_nodup (l : List String) : (firstDedup l).Nodup :=
  (firstDedupAux_nodup l []).1

lemma severityBlock_le (r : List PainLog) : (Urgency.severityBlock r).2 ≤ 25 := by
  simp only [Urgency.severityBlock]
  split_ifs <;> norm_num

lemma frequencyBlock_le (n : ℕ) : (Urgency.frequencyBlock n).2 ≤ 12 := by
  simp only [Urgency.frequencyBlock]
  split_ifs <;> norm_num

lemma trendBlock_le (r : List PainLog) : (Urgency.trendBlock r).2 ≤ 18 := by
  simp only [Urgency.trendBlock]
  split_ifs <;> norm_num

lemma symptomBlock_le (r : List PainLog) : (Urgency.symptomBlock r).2 ≤ 30 := by
  simp only [Urgency.symptomBlock]
  split_ifs <;> norm_num

lemma durationBlock_le (d : ℤ) (a : ℚ) : (Urgency.durationBlock d a).2 ≤ 8 := by
  simp only [Urgency.durationBlock]
  split_ifs <;> norm_num

lemma keywordLe_trans (a b c : Provider.SymptomKeyword) :
    Provider.keywordLe a b = true → Provider.keywordLe b c = true →
    Provider.keywordLe a c = true := by
  simp only [Provider.keywordLe, decide_eq_true_eq]
  omega

lemma keywordLe_total (a b : Provider.SymptomKeyword) :
    (Provider.keywordLe a b || Provider.keywordLe b a) = true := by
  simp only [Provider.keywordLe, Bool.or_eq_true, decide_eq_true_eq]
  omega

lemma sumSev_append (l : List PainLog) (x : PainLog) :
    sumSev (l ++ [x]) = sumSev l + x.severity := by
  simp [sumSev, List.foldl_append]

lemma mkOpen_singleton (x : PainLog) :
    mkOpen [x] = ⟨x.date, x.date, [x], x.severity⟩ := by
  simp [mkOpen, sumSev]

lemma getLastD_concat (l : List PainLog) (x : PainLog) :
    ((l ++ [x]).getLast?.getD default) = x := by
  rw [List.getLast?_concat]
  rfl

lemma mkOpen_append (c : PainLog) (cs : List PainLog) (x : PainLog) :
    mkOpen ((c :: cs) ++ [x])
      = ⟨(mkOpen (c :: cs)).startDate, x.date, (c :: cs) ++ [x],
         (mkOpen (c :: cs)).totalPain + x.severity⟩ := by
  simp only [mkOpen, Provider.OpenPeriod.mk.injEq, List.cons_append,
    List.head?_cons, Option.getD_some, and_true, true_and]
  constructor
  · rw [← List.cons_append, getLastD_concat]
  · rw [← List.cons_append, sumSev_append]

lemma closePeriod_mkOpen (run : List PainLog) :
    Provider.closePeriod (mkOpen run) = specSummarize run := rfl

lemma peakLoop_eq (ls : List PainLog) : ∀ cur : List PainLog,
    Provider.peakLoop (toOpen cur) ls = (highRunsAux cur ls).map specSummarize := by
  induction ls with
  | nil =>
    intro cur
    cases cur with
    | nil => rfl
    | cons c cs =>
      simp [toOpen, Provider.peakLoop, highRunsAux, closePeriod_mkOpen]
  | cons l lt ih =>
    intro cur
    by_cases h : 7 ≤ l.severity
    · cases cur with
      | nil =>
        show Provider.peakLoop none (l :: lt) = _
        simp only [Provider.peakLoop, if_pos h, highRunsAux]
        have h1 : (⟨l.date, l.date, [l], l.severity⟩ : Provider.OpenPeriod)
            = mkOpen [l] := (mkOpen_singleton l).symm
        rw [h1, show some (mkOpen [l]) = toOpen [l] from rfl, ih [l]]
        simp
      | cons c cs =>
        show Provider.peakLoop (some (mkOpen (c :: cs))) (l :: lt) = _
        simp only [Provider.peakLoop, if_pos h, highRunsAux]
        rw [show (⟨(mkOpen (c :: cs)).startDate, l.date,
              (mkOpen (c :: cs)).logs ++ [l],
              (mkOpen (c :: cs)).totalPain + l.severity⟩ : Provider.OpenPeriod)
            = mkOpen ((c :: cs) ++ [l]) from (mkOpen_append c cs l).symm]
        rw [show some (mkOpen ((c :: cs) ++ [l])) = toOpen ((c :: cs) ++ [l]) by
          simp [toOpen]]
        rw [ih ((c :: cs) ++ [l])]
    · cases cur with
      | nil =>
        show Provider.peakLoop none (l :: lt) = _
        simp only [Provider.peakLoop, if_neg h, highRunsAux]
        rw [show (none : Option Provider.OpenPeriod) = toOpen [] from rfl, ih []]
        simp
      | cons c cs =>
        show Provider.peakLoop (some (mkOpen (c :: cs))) (l :: lt) = _
        simp only [Provider.peakLoop, if_neg h, highRunsAux]
        rw [show (none : Option Provider.OpenPeriod) = toOpen [] from rfl, ih []]
        simp [closePeriod_mkOpen]

lemma highRunsAux_mem (ls : List PainLog) : ∀ cur : List PainLog,
    (∀ x ∈ cur, 7 ≤ x.severity) →
    ∀ run ∈ highRunsAux cur ls, run ≠ [] ∧ ∀ x ∈ run, 7 ≤ x.severity := by
  induction ls with
  | nil =>
    intro cur hcur run hrun
    by_cases h : cur = []
    · simp [highRunsAux, h] at hrun
    · simp only [highRunsAux, if_neg h, List.mem_singleton] at hrun
      subst hrun
      exact ⟨h, hcur⟩
  | cons l lt ih =>
    intro cur hcur run hrun
    simp only [highRunsAux] at hrun
    by_cases h : 7 ≤ l.severity
    · rw [if_pos h] at hrun
      refine ih (cur ++ [l]) ?_ run hrun
      intro x hx
      rcases List.mem_append.mp hx with hx' | hx'
      · exact hcur x hx'
      · rw [List.mem_singleton.mp hx']
        exact h
    · rw [if_neg h] at hrun
      by_cases hc : cur = []
      · rw [if_pos hc] at hrun
        exact ih [] (by simp) run hrun
      · rw [if_neg hc] at hrun
        rcases List.mem_cons.mp hrun with rfl | h'
        · exact ⟨hc, hcur⟩
        · exact ih [] (by simp) run h'

lemma isSpikeTest_eq (avg : ℚ) (p c : PainLog) :
    Advanced.isSpikeTest avg p c = claimSpikePred avg (p, c) := by
  simp only [Advanced.isSpikeTest, claimSpikePred]
  rw [Bool.and_comm, ← Bool.and_assoc]

lemma flareLoop_map (avg : ℚ) (rest : List PainLog) :
    ∀ (prev : PainLog) (acc : List Advanced.FlareUp),
    (Advanced.flareLoop avg prev rest acc).map flareProj
      = acc.map flareProj
        ++ (((prev :: rest).zip rest).filter (claimSpikePred avg)).map
            (fun pc => (pc.2.date, pc.2.severity)) := by
  induction rest with
  | nil =>
    intro prev acc
    simp [Advanced.flareLoop]
  | cons cur rs ih =>
    intro prev acc
    simp only [Advanced.flareLoop]
    by_cases hs : Advanced.isSpikeTest avg prev cur = true
    · rw [if_pos hs, ih]
      have hs' : claimSpikePred avg (prev, cur) = true := by
        rw [← isSpikeTest_eq]
        exact hs
      simp [List.zip_cons_cons, List.filter_cons, hs', flareProj]
    · rw [if_neg hs, ih]
      have hs' : claimSpikePred avg (prev, cur) = false := by
        rw [← isSpikeTest_eq]
        exact Bool.eq_false_iff.mpr hs
      simp [List.zip_cons_cons, List.filter_cons, hs']

lemma flareLoop_sev (avg : ℚ) (rest : List PainLog) :
    ∀ (prev : PainLog) (acc : List Advanced.FlareUp) (f : Advanced.FlareUp),
    f ∈ Advanced.flareLoop avg prev rest acc → f ∈ acc ∨ 7 ≤ f.severity := by
  induction rest with
  | nil =>
    intro prev acc f hf
    simp only [Advanced.flareLoop] at hf
    exact Or.inl hf
  | cons cur rs ih =>
    intro prev acc f hf
    simp only [Advanced.flareLoop] at hf
    by_cases hs : Advanced.isSpikeTest avg prev cur = true
    · rw [if_pos hs] at hf
      rcases ih cur _ f hf with h | h
      · rcases List.mem_append.mp h with h' | h'
        · exact Or.inl h'
        · have h7 : 7 ≤ cur.severity := by
            have hs2 := hs
            simp only [Advanced.isSpikeTest, Bool.and_eq_true, decide_eq_true_eq] at hs2
            exact hs2.2
          rw [List.mem_singleton.mp h']
          exact Or.inr h7
      · exact Or.inr h
    · rw [if_neg hs] at hf
      exact ih cur acc f hf

lemma pairs_concat (l : List PainLog) : ∀ (c x : PainLog),
    ((c :: l) ++ [x]).zip (l ++ [x])
      = ((c :: l).zip l) ++ [((c :: l).getLast?.getD default, x)] := by
  induction l with
  | nil =>
    intro c x
    simp
  | cons b bs ih =>
    intro c x
    exact congrArg (List.cons (c, b)) (ih b x)

lemma getLastD_mem (c : PainLog) (l : List PainLog) :
    (c :: l).getLast?.getD default ∈ c :: l := by
  induction l generalizing c with
  | nil => simp
  | cons b bs ih =>
    rw [List.getLast?_cons_cons]
    exact List.mem_cons_of_mem c (ih b)

lemma sumSev_foldl (es : List PainLog) :
    ∀ s : ℕ, es.foldl (fun s l => s + l.severity) s = s + sumSev es := by
  induction es with
  | nil =>
    intro s
    simp [sumSev]
  | cons a as ih =>
    intro s
    simp only [List.foldl_cons, sumSev]
    rw [ih (s + a.severity), ih (0 + a.severity)]
    omega

lemma sumSev_cons (a : PainLog) (as : List PainLog) :
    sumSev (a :: as) = a.severity + sumSev as := by
  calc sumSev (a :: as)
      = as.foldl (fun s l => s + l.severity) (0 + a.severity) := rfl
    _ = 0 + a.severity + sumSev as := sumSev_foldl as (0 + a.severity)
    _ = a.severity + sumSev as := by omega

lemma sumSev_const2 (es : List PainLog) (h : ∀ x ∈ es, x.severity = 2) :
    sumSev es = 2 * es.length := by
  induction es with
  | nil => simp [sumSev]
  | cons a as ih =>
    rw [sumSev_cons, h a (List.mem_cons_self a as),
      ih (fun x hx => h x (List.mem_cons_of_mem a hx))]
    simp [List.length_cons]
    ring

lemma detectFlareUps_chars (logs : List PainLog) (hchrono : Chrono logs)
    (hlen : 3 ≤ logs.length) :
    (Advanced.detectFlareUps logs).map flareProj = claimSpikes logs := by
  simp only [Advanced.detectFlareUps, Chrono] at hchrono ⊢
  rw [hchrono, if_neg (by omega : ¬ logs.length < 3)]
  cases logs with
  | nil => simp at hlen
  | cons h t =>
    rw [flareLoop_map]
    simp [claimSpikes]

lemma detectFlareUps_sev (logs : List PainLog) (f : Advanced.FlareUp)
    (hf : f ∈ Advanced.detectFlareUps logs) : 7 ≤ f.severity := by
  simp only [Advanced.detectFlareUps] at hf
  by_cases hl : logs.length < 3
  · rw [if_pos hl] at hf
    simp at hf
  · rw [if_neg hl] at hf
    cases hsort : sortAsc logs with
    | nil =>
      rw [hsort] at hf
      simp at hf
    | cons h t =>
      rw [hsort] at hf
      rcases flareLoop_sev _ t h [] f hf with h' | h'
      · simp at h'
      · exact h'

end Lemmas

/-- C6.  Peak-period detection emits exactly the maximal runs of
consecutive entries with severity ≥ 7 (a lower-severity entry closes the
open period, and a period still open at the end of the list is closed and
emitted), each summarized by its start date, end date, mean severity
rounded to one decimal, and a description naming the distinct body parts
and the entry count. -/
theorem C6_peak_periods (logs : List PainLog) :
    Provider.identifyPeakPeriods logs = (highRuns logs).map specSummarize
    ∧ ∀ run ∈ highRuns logs, run ≠ [] ∧ ∀ l ∈ run, 7 ≤ l.severity :=
  ⟨peakLoop_eq logs [], highRunsAux_mem logs [] (by simp)⟩

lemma severityBlock_snd (r : List PainLog) :
    (Urgency.severityBlock r).2 = specSeverityPoints r := by
  simp only [Urgency.severityBlock, specSeverityPoints]
  split_ifs <;> rfl

lemma frequencyBlock_snd (n : ℕ) :
    (Urgency.frequencyBlock n).2 = specFrequencyPoints n := by
  simp only [Urgency.frequencyBlock, specFrequencyPoints]
  split_ifs <;> rfl

lemma trendBlock_snd (r : List PainLog) :
    (Urgency.trendBlock r).2 = specTrendPoints r := by
  simp only [Urgency.trendBlock, specTrendPoints]
  split_ifs <;> rfl

lemma symptomBlock_snd (r : List PainLog) :
    (Urgency.symptomBlock r).2 = specKeywordPoints r := by
  have hiff : (0 < (Urgency.CRITICAL_KEYWORDS.filter
        (fun k => containsKw (Urgency.allDescriptions r) k)).length)
      ↔ (∃ k ∈ Urgency.CRITICAL_KEYWORDS, containsKw (Urgency.allDescriptions r) k) := by
    simp [List.length_pos_iff_exists_mem, List.mem_filter]
  simp only [Urgency.symptomBlock, specKeywordPoints, hiff]
  split_ifs <;> rfl

lemma durationBlock_snd (logs : List PainLog) (now : ℤ) :
    (Urgency.durationBlock (Urgency.daysSinceFirstOf (sortDesc logs) now)
        (meanSev ((sortDesc logs).take 10))).2 = specChronicPoints logs now := by
  simp only [Urgency.durationBlock, specChronicPoints]
  split_ifs <;> rfl

/-- C1.  For a non-empty collection the urgency score of
`assessPatientUrgency` is the sum of the five rule-chain contributions of
the spec's §4.4 table (+25/+15/+10 severity, +12/+8 frequency, +18/+10
trend, +30/+15/+8 keywords, +8 chronic), and the level is the step
function of that score with thresholds 25/15/8. -/
theorem C1_urgency_score_and_level (logs : List PainLog) (now : ℤ) (h : logs ≠ []) :
    (Urgency.assessPatientUrgency logs now).score
        = specSeverityPoints ((sortDesc logs).take 10)
          + specFrequencyPoints (Urgency.last7Count logs now)
          + specTrendPoints ((sortDesc logs).take 10)
          + specKeywordPoints ((sortDesc logs).take 10)
          + specChronicPoints logs now
    ∧ (Urgency.assessPatientUrgency logs now).level
        = (if 25 ≤ (Urgency.assessPatientUrgency logs now).score then .critical
           else if 15 ≤ (Urgency.assessPatientUrgency logs now).score then .high
           else if 8 ≤ (Urgency.assessPatientUrgency logs now).score then .medium
           else .low) := by
  simp only [Urgency.assessPatientUrgency, if_neg h]
  exact ⟨by rw [severityBlock_snd, frequencyBlock_snd, trendBlock_snd,
    symptomBlock_snd, durationBlock_snd], trivial⟩

/-- Witness for C1: the decomposition instantiated at a concrete one-entry
collection one day after the entry. -/
theorem C1_witness :
    ([logC] : List PainLog) ≠ []
    ∧ ((Urgency.assessPatientUrgency [logC] 86400000).score
        = specSeverityPoints ((sortDesc [logC]).take 10)
          + specFrequencyPoints (Urgency.last7Count [logC] 86400000)
          + specTrendPoints ((sortDesc [logC]).take 10)
          + specKeywordPoints ((sortDesc [logC]).take 10)
          + specChronicPoints [logC] 86400000
      ∧ (Urgency.assessPatientUrgency [logC] 86400000).level
        = (if 25 ≤ (Urgency.assessPatientUrgency [logC] 86400000).score then .critical
           else if 15 ≤ (Urgency.assessPatientUrgency [logC] 86400000).score then .high
           else if 8 ≤ (Urgency.assessPatientUrgency [logC] 86400000).score then .medium
           else .low)) :=
  ⟨by simp, C1_urgency_score_and_level [logC] 86400000 (by simp)⟩

/-- C4 (amended).  The non-timestamp output of `assessPatientUrgency`
(level, score, flags, recommendations) is a function of the input entries,
the number of entries dated within the clock's trailing seven-day window,
and the whole-day span since the first entry: two invocations whose clocks
agree on those two derived quantities return identical non-timestamp
fields.  (The counterexample shows the output is *not* a function of the
input entries alone.) -/
theorem C4_time_dependence (logs : List PainLog) (t₁ t₂ : ℤ)
    (h7 : Urgency.last7Count logs t₁ = Urgency.last7Count logs t₂)
    (hd : Urgency.daysSinceFirstOf (sortDesc logs) t₁
        = Urgency.daysSinceFirstOf (sortDesc logs) t₂) :
    (Urgency.assessPatientUrgency logs t₁).level
        = (Urgency.assessPatientUrgency logs t₂).level
    ∧ (Urgency.assessPatientUrgency logs t₁).score
        = (Urgency.assessPatientUrgency logs t₂).score
    ∧ (Urgency.assessPatientUrgency logs t₁).flags
        = (Urgency.assessPatientUrgency logs t₂).flags
    ∧ (Urgency.assessPatientUrgency logs t₁).recommendations
        = (Urgency.assessPatientUrgency logs t₂).recommendations := by
  by_cases h : logs = []
  · subst h
    exact ⟨rfl, rfl, rfl, rfl⟩
  · simp only [Urgency.assessPatientUrgency, if_neg h]
    rw [h7, hd]
    exact ⟨rfl, rfl, rfl, rfl⟩

/-- Witness for C4 (amended): the same one-entry collection assessed at two
different clock values (one second apart) that agree on the seven-day
window count and the day span. -/
theorem C4_witness :
    Urgency.last7Count [logC] 86400000 = Urgency.last7Count [logC] 86401000
    ∧ Urgency.daysSinceFirstOf (sortDesc [logC]) 86400000
        = Urgency.daysSinceFirstOf (sortDesc [logC]) 86401000
    ∧ ((Urgency.assessPatientUrgency [logC] 86400000).level
          = (Urgency.assessPatientUrgency [logC] 86401000).level
      ∧ (Urgency.assessPatientUrgency [logC] 86400000).score
          = (Urgency.assessPatientUrgency [logC] 86401000).score
      ∧ (Urgency.assessPatientUrgency [logC] 86400000).flags
          = (Urgency.assessPatientUrgency [logC] 86401000).flags
      ∧ (Urgency.assessPatientUrgency [logC] 86400000).recommendations
          = (Urgency.assessPatientUrgency [logC] 86401000).recommendations) := by
  have h7 : Urgency.last7Count [logC] 86400000
      = Urgency.last7Count [logC] 86401000 := by
    simp only [Urgency.last7Count, sortDesc, List.mergeSort_singleton]
    decide
  have hd : Urgency.daysSinceFirstOf (sortDesc [logC]) 86400000
      = Urgency.daysSinceFirstOf (sortDesc [logC]) 86401000 := by
    simp only [sortDesc, List.mergeSort_singleton, Urgency.daysSinceFirstOf,
      msPerDay, logC]
    decide
  exact ⟨h7, hd, C4_time_dependence [logC] 86400000 86401000 h7 hd⟩

/-- Counterexample to C4 as stated: the same one-entry collection
(severity 5, logged at epoch day 0) assessed one day later scores 0
(level low), but assessed forty days later scores 8 (level medium): the
chronic-pattern rule reads the ambient clock, so the non-timestamp output
is not a function of the input entries alone. -/
theorem C4_counterexample :
    (Urgency.assessPatientUrgency [logC] 86400000).score = 0
    ∧ (Urgency.assessPatientUrgency [logC] 3456000000).score = 8
    ∧ (Urgency.assessPatientUrgency [logC] 86400000).level = .low
    ∧ (Urgency.assessPatientUrgency [logC] 3456000000).level = .medium := by
  have hne : ([logC] : List PainLog) ≠ [] := by simp
  have hsort : sortDesc [logC] = [logC] := by
    simp [sortDesc]
  have htake : (sortDesc [logC]).take 10 = [logC] := by
    rw [hsort]
    rfl
  have hsev : Urgency.severityBlock [logC] = ([], 0) := by
    simp only [Urgency.severityBlock, maxSev, meanSev, sumSev, logC]
    norm_num
  have hsym : Urgency.symptomBlock [logC] = ([], 0) := by rfl
  have htrend : Urgency.trendBlock [logC] = ([], 0) := by rfl
  have h71 : Urgency.last7Count [logC] 86400000 = 1 := by
    simp only [Urgency.last7Count, sortDesc, List.mergeSort_singleton]
    decide
  have h72 : Urgency.last7Count [logC] 3456000000 = 0 := by
    simp only [Urgency.last7Count, sortDesc, List.mergeSort_singleton]
    decide
  have hd1 : Urgency.daysSinceFirstOf (sortDesc [logC]) 86400000 = 1 := by
    simp only [sortDesc, List.mergeSort_singleton, Urgency.daysSinceFirstOf,
      msPerDay, logC]
    decide
  have hd2 : Urgency.daysSinceFirstOf (sortDesc [logC]) 3456000000 = 40 := by
    simp only [sortDesc, List.mergeSort_singleton, Urgency.daysSinceFirstOf,
      msPerDay, logC]
    decide
  have hdur1 : Urgency.durationBlock 1 (meanSev [logC]) = ([], 0) := by
    simp [Urgency.durationBlock]
  have hdur2 : Urgency.durationBlock 40 (meanSev [logC])
      = ([⟨.durationF, .medium, "Chronic pain pattern",
           [(40 : ℚ), meanSev [logC]], []⟩], 8) := by
    have hm : (5 : ℚ) ≤ meanSev [logC] := by
      norm_num [meanSev, sumSev, logC]
    simp [Urgency.durationBlock, hm]
  simp only [Urgency.assessPatientUrgency, if_neg hne, htake, hsev, hsym,
    htrend, h71, h72, hd1, hd2, hdur1, hdur2]
  norm_num [Urgency.frequencyBlock]

/-- C5.  Trend classification of `generateDoctorReport` agrees with the
spec: with at least 4 entries, sort chronologically ascending, split at
`floor(n/2)`, and return `improving` when `laterMean − earlierMean < −0.5`,
`worsening` when `> +0.5`, otherwise `stable`; with fewer than 4 entries
the result is `stable`. -/
theorem C5_trend_classification (logs : List PainLog) :
    DoctorExport.painTrend logs = specTrend logs := by
  simp only [DoctorExport.painTrend, specTrend]
  split_ifs <;> first | rfl | omega | linarith

/-- C8.  On the empty collection `assessPatientUrgency` returns level low,
score 0, no flags and the single recommendation
"No recent pain data available"; and on every input its recommendation
list contains no duplicates. -/
theorem C8_empty_input_and_dedup :
    (∀ now : ℤ, Urgency.assessPatientUrgency [] now
        = ⟨.low, 0, [], ["No recent pain data available"], now⟩)
    ∧ ∀ (logs : List PainLog) (now : ℤ),
        (Urgency.assessPatientUrgency logs now).recommendations.Nodup := by
  refine ⟨fun now => rfl, fun logs now => ?_⟩
  by_cases h : logs = []
  · subst h
    simp [Urgency.assessPatientUrgency]
  · simp only [Urgency.assessPatientUrgency, if_neg h,
      Urgency.generateRecommendations]
    exact firstDedup_nodup _

/-- C10.  The urgency score of `assessPatientUrgency` is a sum of at most
one contribution per rule chain (25 severity + 12 frequency + 18 trend +
30 symptoms + 8 duration) and is therefore bounded by 93; it can never
reach the spec's suggested practical cap of about 130. -/
theorem C10_score_bounded (logs : List PainLog) (now : ℤ) :
    (Urgency.assessPatientUrgency logs now).score ≤ 93 := by
  by_cases h : logs = []
  · subst h
    simp [Urgency.assessPatientUrgency]
  · simp only [Urgency.assessPatientUrgency, if_neg h]
    have h1 := severityBlock_le ((sortDesc logs).take 10)
    have h2 := frequencyBlock_le (Urgency.last7Count logs now)
    have h3 := trendBlock_le ((sortDesc logs).take 10)
    have h4 := symptomBlock_le ((sortDesc logs).take 10)
    have h5 := durationBlock_le (Urgency.daysSinceFirstOf (sortDesc logs) now)
      (meanSev ((sortDesc logs).take 10))
    omega

/-- C2 (amended).  On a chronologically ordered collection of at least 3
entries, `detectFlareUps` marks exactly the entries with severity ≥ 7 that
exceed both the overall mean and the previous entry's severity by more
than 2 (the first entry never); appending a severity-10 entry after at
least two severity-2 entries yields a marked spike; and an emitted
flare-up always has severity ≥ 7, so a severity-2 entry is never marked. -/
theorem C2_flareups_characterization :
    (∀ logs : List PainLog, Chrono logs → 3 ≤ logs.length →
        (Advanced.detectFlareUps logs).map flareProj = claimSpikes logs)
    ∧ (∀ (es : List PainLog) (e10 : PainLog), Chrono (es ++ [e10]) →
        2 ≤ es.length → (∀ x ∈ es, x.severity = 2) → e10.severity = 10 →
        ∃ f ∈ Advanced.detectFlareUps (es ++ [e10]),
          flareProj f = (e10.date, e10.severity))
    ∧ (∀ (logs : List PainLog) (f : Advanced.FlareUp),
        f ∈ Advanced.detectFlareUps logs → 7 ≤ f.severity) := by
  refine ⟨fun logs h1 h2 => detectFlareUps_chars logs h1 h2, ?_,
    fun logs f hf => detectFlareUps_sev logs f hf⟩
  intro es e10 hch hlen hsev2 h10
  cases es with
  | nil => simp at hlen
  | cons c l =>
    have hlen3 : 3 ≤ ((c :: l) ++ [e10]).length := by
      simp only [List.length_append, List.length_cons, List.length_singleton]
      simp only [List.length_cons] at hlen
      omega
    have ha := detectFlareUps_chars ((c :: l) ++ [e10]) hch hlen3
    have hlmem : (c :: l).getLast?.getD default ∈ c :: l := getLastD_mem c l
    have hlsev : ((c :: l).getLast?.getD default).severity = 2 := hsev2 _ hlmem
    have hpair : ((c :: l).getLast?.getD default, e10)
        ∈ (((c :: l) ++ [e10]).zip (((c :: l) ++ [e10]).tail)) := by
      rw [show (((c :: l) ++ [e10]).tail) = l ++ [e10] from rfl, pairs_concat l c e10]
      exact List.mem_append_right _ (List.mem_singleton.mpr rfl)
    have hsum : sumSev ((c :: l) ++ [e10]) = 2 * (c :: l).length + 10 := by
      rw [sumSev_append, sumSev_const2 (c :: l) hsev2, h10]
    have hpred : claimSpikePred (meanSev ((c :: l) ++ [e10]))
        ((c :: l).getLast?.getD default, e10) = true := by
      simp only [claimSpikePred, Bool.and_eq_true, decide_eq_true_eq]
      refine ⟨⟨by omega, ?_⟩, by omega⟩
      rw [h10]
      have hlen2 : ((c :: l) ++ [e10]).length = (c :: l).length + 1 := by simp
      simp only [meanSev, hsum, hlen2]
      have hn1 : (1 : ℚ) ≤ ((c :: l).length : ℚ) := by
        have h1 : 1 ≤ (c :: l).length := by simp
        exact_mod_cast h1
      rw [show ((10 : ℕ) : ℚ) = 10 by norm_num, ← lt_sub_iff_add_lt]
      norm_num
      rw [div_lt_iff₀ (by positivity)]
      linarith
    have hmem : (e10.date, e10.severity) ∈ claimSpikes ((c :: l) ++ [e10]) :=
      List.mem_map.mpr ⟨((c :: l).getLast?.getD default, e10),
        List.mem_filter.mpr ⟨hpair, hpred⟩, rfl⟩
    rw [← ha] at hmem
    rcases List.mem_map.mp hmem with ⟨f, hf, hproj⟩
    exact ⟨f, hf, hproj⟩

/-- Counterexample to C2 as stated: the two-entry collection
`[severity 2, severity 10]` satisfies every spike condition of the claim at
its second entry (severity 10 ≥ 7, above mean 6 plus 2, above previous 2
plus 2), yet `detectFlareUps` returns no flare-ups because collections
with fewer than 3 entries are short-circuited to `[]`. -/
theorem C2_counterexample :
    Advanced.detectFlareUps [logS1, logS3] = []
    ∧ logS1.severity = 2 ∧ logS3.severity = 10
    ∧ Chrono [logS1, logS3]
    ∧ claimSpikes [logS1, logS3] = [(logS3.date, 10)] := by
  refine ⟨rfl, rfl, rfl, ?_, ?_⟩
  · show sortAsc [logS1, logS3] = [logS1, logS3]
    exact List.mergeSort_of_sorted (by simp [logS1, logS3, List.pairwise_cons])
  · have hpred : claimSpikePred (meanSev [logS1, logS3]) (logS1, logS3) = true := by
      simp only [claimSpikePred, Bool.and_eq_true, decide_eq_true_eq]
      refine ⟨⟨by norm_num [logS3], ?_⟩, by norm_num [logS1, logS3]⟩
      norm_num [meanSev, sumSev, logS1, logS3]
    simp [claimSpikes, List.zip_cons_cons, List.filter_cons, hpred]
    rfl

/-- Witness for C2 (amended) at the concrete ordered collection
`[severity 2, severity 2, severity 10]`. -/
theorem C2_witness :
    (Chrono [logS1, logS2, logS3]
      ∧ 3 ≤ ([logS1, logS2, logS3] : List PainLog).length
      ∧ (Advanced.detectFlareUps [logS1, logS2, logS3]).map flareProj
          = claimSpikes [logS1, logS2, logS3])
    ∧ ((∀ x ∈ ([logS1, logS2] : List PainLog), x.severity = 2)
      ∧ logS3.severity = 10
      ∧ ∃ f ∈ Advanced.detectFlareUps ([logS1, logS2] ++ [logS3]),
          flareProj f = (logS3.date, logS3.severity))
    ∧ (∀ f ∈ Advanced.detectFlareUps [logS1, logS2, logS3], 7 ≤ f.severity) := by
  have hch : Chrono [logS1, logS2, logS3] := by
    show sortAsc [logS1, logS2, logS3] = [logS1, logS2, logS3]
    exact List.mergeSort_of_sorted
      (by simp [logS1, logS2, logS3, List.pairwise_cons])
  refine ⟨⟨hch, by simp, C2_flareups_characterization.1 _ hch (by simp)⟩,
    ⟨?_, rfl, C2_flareups_characterization.2.1 [logS1, logS2] logS3 hch
      (by simp) ?_ rfl⟩,
    fun f hf => C2_flareups_characterization.2.2 [logS1, logS2, logS3] f hf⟩
  · intro x hx
    rcases List.mem_cons.mp hx with rfl | hx'
    · rfl
    · rw [List.mem_singleton.mp hx']
      rfl
  · intro x hx
    rcases List.mem_cons.mp hx with rfl | hx'
    · rfl
    · rw [List.mem_singleton.mp hx']
      rfl

/-- Witness for C6 at a concrete one-entry run of severity 10. -/
theorem C6_witness :
    (Provider.identifyPeakPeriods [logS3] = (highRuns [logS3]).map specSummarize)
    ∧ [logS3] ∈ highRuns [logS3]
    ∧ ([logS3] ≠ ([] : List PainLog) ∧ ∀ l ∈ ([logS3] : List PainLog), 7 ≤ l.severity) :=
  ⟨(C6_peak_periods [logS3]).1, by decide,
   (C6_peak_periods [logS3]).2 [logS3] (by decide)⟩

/-- C3.  At a concrete two-entry collection supplied in ascending
chronological order, `generateDoctorReport` leaves the caller's array
reordered newest-first (the in-place `painLogs.sort` of
`doctorExport.ts` line 115), while `assessPatientUrgency`,
`detectFlareUps` and `generateProviderSummary` leave it unchanged. -/
theorem C3_doctor_report_mutates_input :
    DoctorExport.generateDoctorReportArray [logA, logB] = [logB, logA]
    ∧ [logB, logA] ≠ ([logA, logB] : List PainLog)
    ∧ Advanced.assessPatientUrgencyArray [logA, logB] = [logA, logB]
    ∧ Advanced.detectFlareUpsArray [logA, logB] = [logA, logB]
    ∧ Advanced.generateProviderSummaryArray [logA, logB] = [logA, logB] := by
  refine ⟨?_, ?_, rfl, rfl, rfl⟩
  · simp [DoctorExport.generateDoctorReportArray, sortDesc, List.mergeSort,
      logA, logB]
  · simp [logA, logB]

/-- C9.  The urgency helper embedded in `generateProviderSummary` uses its
own scale: +40 for any severe keyword, +25 when severity ≥ 8 entries
exceed 30% of the collection, +20 when the mean of the last five entries
exceeds the mean of the (nonempty) earlier entries by more than one,
+15 for sleep keywords, +10 for functional-limitation keywords, and the
level is critical iff score ≥ 60, high iff 40 ≤ score < 60, medium iff
20 ≤ score < 40, else low. -/
theorem C9_provider_urgency_scale (logs : List PainLog)
    (flagged : List Provider.SymptomKeyword) :
    (Provider.assessUrgency logs flagged).score
      = (if ∃ s ∈ flagged, s.severity = Tier.severe then 40 else 0)
        + (if ((logs.length : ℚ)) * (3/10)
              < (((logs.filter (fun l => decide (8 ≤ l.severity))).length : ℚ))
           then 25 else 0)
        + (if 5 ≤ logs.length ∧ logs.take (logs.length - 5) ≠ []
              ∧ meanSev (logs.take (logs.length - 5)) + 1
                  < meanSev (logs.drop (logs.length - 5))
           then 20 else 0)
        + (if ∃ s ∈ flagged, (substrIn "sleep".data s.keyword.data
              ∨ substrIn "insomnia".data s.keyword.data) then 15 else 0)
        + (if ∃ s ∈ flagged, (substrIn "limited".data s.keyword.data
              ∨ substrIn "difficult".data s.keyword.data) then 10 else 0)
    ∧ ((Provider.assessUrgency logs flagged).level = .critical
        ↔ 60 ≤ (Provider.assessUrgency logs flagged).score)
    ∧ ((Provider.assessUrgency logs flagged).level = .high
        ↔ 40 ≤ (Provider.assessUrgency logs flagged).score
          ∧ (Provider.assessUrgency logs flagged).score < 60)
    ∧ ((Provider.assessUrgency logs flagged).level = .medium
        ↔ 20 ≤ (Provider.assessUrgency logs flagged).score
          ∧ (Provider.assessUrgency logs flagged).score < 40)
    ∧ ((Provider.assessUrgency logs flagged).level = .low
        ↔ (Provider.assessUrgency logs flagged).score < 20) := by
  have hcrit : Provider.criticalPart flagged
      = (if ∃ s ∈ flagged, s.severity = Tier.severe then 40 else 0) := by
    have hiff : (0 < (flagged.filter (fun s => s.severity = Tier.severe)).length)
        ↔ ∃ s ∈ flagged, s.severity = Tier.severe := by
      simp [List.length_pos_iff_exists_mem, List.mem_filter]
    simp only [Provider.criticalPart, hiff]
  have hsleep : Provider.sleepPart flagged
      = (if ∃ s ∈ flagged, (substrIn "sleep".data s.keyword.data
            ∨ substrIn "insomnia".data s.keyword.data) then 15 else 0) := by
    have hiff : (0 < (flagged.filter (fun s => substrIn "sleep".data s.keyword.data
          || substrIn "insomnia".data s.keyword.data)).length)
        ↔ ∃ s ∈ flagged, (substrIn "sleep".data s.keyword.data
            ∨ substrIn "insomnia".data s.keyword.data) := by
      simp [List.length_pos_iff_exists_mem, List.mem_filter]
    simp only [Provider.sleepPart, hiff]
  have hfunc : Provider.functionalPart flagged
      = (if ∃ s ∈ flagged, (substrIn "limited".data s.keyword.data
            ∨ substrIn "difficult".data s.keyword.data) then 10 else 0) := by
    have hiff : (0 < (flagged.filter (fun s => substrIn "limited".data s.keyword.data
          || substrIn "difficult".data s.keyword.data)).length)
        ↔ ∃ s ∈ flagged, (substrIn "limited".data s.keyword.data
            ∨ substrIn "difficult".data s.keyword.data) := by
      simp [List.length_pos_iff_exists_mem, List.mem_filter]
    simp only [Provider.functionalPart, hiff]
  have htrend : Provider.trendPart logs
      = (if 5 ≤ logs.length ∧ logs.take (logs.length - 5) ≠ []
            ∧ meanSev (logs.take (logs.length - 5)) + 1
                < meanSev (logs.drop (logs.length - 5))
         then 20 else 0) := by
    simp only [Provider.trendPart]
    by_cases h5 : 5 ≤ logs.length
    · simp only [if_pos h5]
      by_cases hin : logs.take (logs.length - 5) ≠ []
          ∧ meanSev (logs.take (logs.length - 5)) + 1
              < meanSev (logs.drop (logs.length - 5))
      · rw [if_pos hin, if_pos ⟨h5, hin.1, hin.2⟩]
      · rw [if_neg hin, if_neg (fun hc => hin ⟨hc.2.1, hc.2.2⟩)]
    · rw [if_neg h5, if_neg (fun hc => h5 hc.1)]
  constructor
  · simp only [Provider.assessUrgency]
    rw [hcrit, hsleep, hfunc, htrend]
    rfl
  · simp only [Provider.assessUrgency]
    refine ⟨?_, ?_, ?_, ?_⟩ <;> split_ifs <;> simp_all <;> omega

/-- C7.  The matched-keyword list returned by `detectSymptomKeywords` is
sorted by severity tier descending (severe before moderate before mild)
and, within the same tier, by match count descending. -/
theorem C7_keyword_ordering (logs : List PainLog) :
    (Provider.detectSymptomKeywords logs).Pairwise (fun a b =>
      Provider.severityOrder b.severity < Provider.severityOrder a.severity
        ∨ (a.severity = b.severity ∧ b.count ≤ a.count)) := by
  have hs := List.sorted_mergeSort keywordLe_trans keywordLe_total
    (logs.foldl Provider.keywordStep [])
  unfold Provider.detectSymptomKeywords
  refine hs.imp ?_
  intro a b hab
  have hab' := hab
  simp only [Provider.keywordLe, decide_eq_true_eq] at hab'
  rcases hab' with h | ⟨heq, hc⟩
  · exact Or.inl h
  · refine Or.inr ⟨?_, hc⟩
    revert heq
    have : ∀ x y : Tier, Provider.severityOrder x = Provider.severityOrder y → x = y := by
      intro x y
      cases x <;> cases y <;> decide
    exact fun heq => this _ _ heq.symm
